import Mathlib

/-!
# gpusched daemon core — shallow embedding

A shallow embedding of the gpusched daemon core (Go sources:
`internal/daemon` package, `internal/checkpoint/checkpoint.go`,
`internal/protocol/protocol.go`, `internal/daemon/server.go`).

External effects (the `cuda-checkpoint` tool, POSIX signals, `nvidia-smi`
memory queries, the process spawner, the filesystem) are modelled by
passing their observable outcomes in as explicit parameters, and by
recording every signal delivery / tool invocation the daemon performs in
an action trace that the operations return alongside the updated state.
Go `time.Time` values are abstract `Nat` ticks; Go `int`/`int64` are `Int`.
-/

namespace Gpusched

/-- Embeds `protocol.ProcessState` (protocol.go): the lifecycle states. -/
inductive ProcessState
  | active
  | frozen
  | hibernated
  | dead
  deriving DecidableEq, Repr

/-- The string value of each `protocol.ProcessState` constant. -/
def ProcessState.render : ProcessState → String
  | .active => "active"
  | .frozen => "frozen"
  | .hibernated => "hibernated"
  | .dead => "dead"

/-- Tiers: `protocol.Tier` is a Go string type (`"gpu"`, `"ram"`, `"disk"`; the Go
zero value is `""`), so tiers are modelled as plain strings. -/
def TierGPU : String := "gpu"

/-- The `"ram"` tier constant. -/
def TierRAM : String := "ram"

/-- The `"disk"` tier constant. -/
def TierDisk : String := "disk"

/-- Embeds `daemon.Proc` (daemon core, lines 22-32).  `Cmd` and `logFile` are OS
handles carrying no registry-visible data and are not modelled. -/
structure Proc where
  name : String
  pid : Nat
  state : ProcessState
  gpu : Int
  memMB : Int
  started : Nat
  logPath : String
  deriving DecidableEq, Repr

/-- Embeds `protocol.Metrics` (protocol.go lines 110-121). -/
structure Metrics where
  requests : Nat := 0
  cacheHits : Nat := 0
  freezes : Nat := 0
  thaws : Nat := 0
  forks : Nat := 0
  migrations : Nat := 0
  hibernations : Nat := 0
  coldStarts : Nat := 0
  avgFreezeMs : Int := 0
  avgThawMs : Int := 0
  deriving DecidableEq, Repr

/-- Embeds `protocol.Event` (protocol.go lines 37-43). -/
structure Event where
  time : Nat := 0
  type : String
  process : String := ""
  detail : String := ""
  duration : Int := 0
  deriving DecidableEq, Repr

/-- Signals the daemon sends (`syscall.Kill` call sites). -/
inductive Signal
  | sigstop
  | sigcont
  | sigterm
  | sigkill
  deriving DecidableEq, Repr

/-- One invocation of the external `cuda-checkpoint` tool
(checkpoint.go: `--action` argument, plus the `--device` variant). -/
inductive CkptAction
  | lock
  | checkpoint
  | restore
  | unlock
  | restoreOnDevice (device : Int)
  deriving DecidableEq, Repr

/-- An externally observable action performed by a daemon operation:
a signal delivery, a checkpoint-tool invocation, or the deferred
SIGKILL that `Kill` schedules after its grace period. -/
inductive SysAction
  | signal (pid : Nat) (sig : Signal)
  | tool (a : CkptAction)
  | schedKill (pid : Nat)
  deriving DecidableEq, Repr

/-- Errors produced by the checkpoint adapter (checkpoint.go).
`tool` is a non-zero exit of the external binary (its combined-output
text); `wrap` is `fmt.Errorf("<label>: %w", err)`. -/
inductive CkptErr
  | notAvailable
  | tool (msg : String)
  | wrap (label : String) (e : CkptErr)
  deriving DecidableEq, Repr

/-- Rendering of checkpoint-adapter errors to Go error strings. -/
def CkptErr.render : CkptErr → String
  | .notAvailable => "cuda-checkpoint not available"
  | .tool msg => msg
  | .wrap label e => label ++ ": " ++ e.render

/-- The outcome of one external-tool invocation, as the daemon would
observe it: elapsed milliseconds plus an optional failure text
(`exec` returns the elapsed time even on failure). -/
structure ToolRes where
  dur : Int := 0
  err : Option String := none
  deriving DecidableEq, Repr

/-- Predetermined outcomes for each tool action an operation may invoke. -/
structure CkptEnv where
  lockR : ToolRes := {}
  checkpointR : ToolRes := {}
  restoreR : ToolRes := {}
  unlockR : ToolRes := {}
  restoreOnDeviceR : ToolRes := {}
  deriving DecidableEq, Repr

/-- Embeds `CUDA.run` / `CUDA.exec` (checkpoint.go lines 87-107): fails with
`notAvailable` when the tool is absent, otherwise yields the
environment-provided outcome of the invocation. -/
def runTool (avail : Bool) (r : ToolRes) : Int × Option CkptErr :=
  if avail then (r.dur, r.err.map CkptErr.tool) else (0, some .notAvailable)

/-- Embeds `CUDA.Freeze` (checkpoint.go lines 58-71): Lock; Checkpoint; on
Checkpoint failure attempt Unlock as best-effort rollback (its result is
discarded, so `env.unlockR` is not consulted).  Returns
`((duration, error?), actions invoked)`. -/
def CUDA.Freeze (avail : Bool) (env : CkptEnv) :
    (Int × Option CkptErr) × List CkptAction :=
  let (lockDur, lockErr) := runTool avail env.lockR
  match lockErr with
  | some e => ((lockDur, some (.wrap "lock" e)), [.lock])
  | none =>
    let (ckptDur, ckptErr) := runTool avail env.checkpointR
    let total := lockDur + ckptDur
    match ckptErr with
    | some e => ((total, some (.wrap "checkpoint" e)), [.lock, .checkpoint, .unlock])
    | none => ((total, none), [.lock, .checkpoint])

/-- Embeds `CUDA.Thaw` (checkpoint.go lines 73-85): Restore; Unlock. -/
def CUDA.Thaw (avail : Bool) (env : CkptEnv) :
    (Int × Option CkptErr) × List CkptAction :=
  let (restDur, restErr) := runTool avail env.restoreR
  match restErr with
  | some e => ((restDur, some (.wrap "restore" e)), [.restore])
  | none =>
    let (unlDur, unlErr) := runTool avail env.unlockR
    let total := restDur + unlDur
    match unlErr with
    | some e => ((total, some (.wrap "unlock" e)), [.restore, .unlock])
    | none => ((total, none), [.restore, .unlock])

/-- Embeds `CUDA.RestoreOnDevice` (checkpoint.go lines 51-56). -/
def CUDA.RestoreOnDevice (avail : Bool) (env : CkptEnv) (device : Int) :
    (Int × Option CkptErr) × List CkptAction :=
  let (dur, err) := runTool avail env.restoreOnDeviceR
  ((dur, err), [.restoreOnDevice device])

/-- Embeds `CUDA.Unlock` as the daemon calls it directly (checkpoint.go line 47). -/
def CUDA.Unlock (avail : Bool) (env : CkptEnv) :
    (Int × Option CkptErr) × List CkptAction :=
  let (dur, err) := runTool avail env.unlockR
  ((dur, err), [.unlock])

/-- Errors produced by the daemon core, one constructor per `fmt.Errorf`
call site reachable from the modelled operations. -/
inductive DErr
  | notFound (name : String)
  | alreadyExists (name : String)
  | emptyCommand
  | creatingLog (msg : String)
  | startingProcess (msg : String)
  | wrongStateNotActive (name : String) (st : ProcessState)
  | wrongStateNotFrozen (name : String) (st : ProcessState)
  | cudaNotAvailable
  | cudaFreeze (e : CkptErr)
  | cudaThaw (e : CkptErr)
  | freezeForMigrate (e : CkptErr)
  | restoreOnGpu (gpu : Int) (e : CkptErr)
  | unlockAfterMigrate (e : CkptErr)
  | readingLogs (msg : String)
  deriving DecidableEq, Repr

/-- Go `%q` on the process names appearing in daemon errors: double-quote
the name, escaping backslashes and double quotes (names never contain
other characters `%q` would escape). -/
def goQuote (s : String) : String :=
  "\x22" ++ String.mk (s.data.flatMap fun c =>
    if c = '\x22' ∨ c = '\\' then ['\\', c] else [c]) ++ "\x22"

/-- Rendering of daemon errors to Go error strings (the exact
`fmt.Errorf` formats of the daemon core). -/
def DErr.render : DErr → String
  | .notFound n => "process " ++ goQuote n ++ " not found"
  | .alreadyExists n => "process " ++ goQuote n ++ " already exists"
  | .emptyCommand => "empty command"
  | .creatingLog m => "creating log: " ++ m
  | .startingProcess m => "starting process: " ++ m
  | .wrongStateNotActive n st =>
      "process " ++ goQuote n ++ " is " ++ st.render ++ ", not active"
  | .wrongStateNotFrozen n st =>
      "process " ++ goQuote n ++ " is " ++ st.render ++ ", not frozen"
  | .cudaNotAvailable => "cuda-checkpoint not available"
  | .cudaFreeze e => "cuda freeze: " ++ e.render
  | .cudaThaw e => "cuda thaw: " ++ e.render
  | .freezeForMigrate e => "freeze for migrate: " ++ e.render
  | .restoreOnGpu g e => "restore on gpu " ++ toString g ++ ": " ++ e.render
  | .unlockAfterMigrate e => "unlock after migrate: " ++ e.render
  | .readingLogs m => "reading logs: " ++ m

/-- Whether a daemon error is one of the two WrongState errors
(`process %q is %s, not active` / `... not frozen`). -/
def DErr.isWrongState : DErr → Bool
  | .wrongStateNotActive _ _ => true
  | .wrongStateNotFrozen _ _ => true
  | _ => false

/-- Embeds `protocol.RunParams`. -/
structure RunParams where
  name : String
  cmd : List String
  dir : String := ""
  gpu : Int := 0
  deriving DecidableEq, Repr

/-- Embeds `protocol.MigrateParams`. -/
structure MigrateParams where
  name : String
  gpu : Int
  deriving DecidableEq, Repr

/-- Embeds `protocol.LogsParams`. -/
structure LogsParams where
  name : String
  lines : Int := 0
  follow : Bool := false
  deriving DecidableEq, Repr

/-- Embeds `protocol.RunResult`. -/
structure RunResult where
  name : String
  pid : Nat
  deriving DecidableEq, Repr

/-- Embeds `protocol.FreezeResult` (protocol.go lines 134-139); `tier` is a Go
string field whose zero value is `""`. -/
structure FreezeResult where
  name : String
  durationMs : Int
  tier : String := ""
  memMB : Int
  deriving DecidableEq, Repr

/-- Embeds `protocol.ThawResult` (protocol.go lines 141-146). -/
structure ThawResult where
  name : String
  durationMs : Int
  fromTier : String := ""
  memMB : Int
  deriving DecidableEq, Repr

/-- Embeds `protocol.MigrateResult`. -/
structure MigrateResult where
  name : String
  fromGPU : Int
  toGPU : Int
  deriving DecidableEq, Repr

/-- The daemon registry: the Go `map[string]*Proc` as an association
list keyed by process name. -/
abbrev Registry := List (String × Proc)

/-- Go map read `d.procs[name]`. -/
def findProc : Registry → String → Option Proc
  | [], _ => none
  | (k, v) :: rest, n => if k = n then some v else findProc rest n

/-- In-place mutation of the `*Proc` a map slot points at: every slot
keyed `n` (reachable registries have at most one) is updated by `f`. -/
def updateProc (r : Registry) (n : String) (f : Proc → Proc) : Registry :=
  r.map fun kv => if kv.1 = n then (kv.1, f kv.2) else kv

/-- Go map delete `delete(d.procs, name)`. -/
def eraseProc (r : Registry) (n : String) : Registry :=
  r.filter fun kv => kv.1 ≠ n

/-- The daemon state touched by the modelled operations
(`daemon.Daemon`; the subscriber list, logger, and config are not
registry-visible and carry no claim-relevant data). -/
structure Daemon where
  procs : Registry := []
  events : List Event := []
  metrics : Metrics := {}
  cudaAvailable : Bool := false
  freezeTotalMs : Int := 0
  thawTotalMs : Int := 0
  logDir : String := "/tmp/gpusched/logs"
  ramBudgetMB : Int := 0
  deriving DecidableEq, Repr

/-- Embeds `Daemon.emit` (daemon core lines 552-568): stamp the event time,
append to the ring, trim 1000 → last 500 on overflow (subscriber fan-out
carries no state). -/
def Daemon.emit (d : Daemon) (e : Event) (now : Nat) : Daemon :=
  let es := d.events ++ [{ e with time := now }]
  { d with events := if es.length > 1000 then es.drop (es.length - 500) else es }

/-- The best-effort VRAM refresh `if mem := gpu.ProcessGPUMem(p.PID); mem > 0
{ p.MemMB = mem }` used by Freeze and Migrate. -/
def refreshMem (p : Proc) (memSample : Int) : Proc :=
  if memSample > 0 then { p with memMB := memSample } else p

/-- Embeds `protocol.GPUInfo`. -/
structure GPUInfo where
  index : Int
  name : String
  memTotal : Int
  memUsed : Int
  memFree : Int
  deriving DecidableEq, Repr

/-- Embeds `protocol.ProcessInfo` (protocol.go lines 90-99). -/
structure ProcessInfo where
  name : String
  pid : Nat
  state : ProcessState
  gpu : Int
  memMB : Int
  age : String
  started : Nat
  tier : String
  deriving DecidableEq, Repr

/-- Embeds `protocol.MemoryInfo`. -/
structure MemoryInfo where
  hostRAMTotalMB : Int := 0
  hostRAMFreeMB : Int := 0
  hostRAMBudgetMB : Int := 0
  snapshotsMB : Int := 0
  diskUsedMB : Int := 0
  diskBudgetMB : Int := 0
  deriving DecidableEq, Repr

/-- Embeds `protocol.Capabilities`. -/
structure Capabilities where
  cudaCheckpoint : Bool
  criu : Bool := false
  driverVersion : String := ""
  deriving DecidableEq, Repr

/-- Embeds `protocol.StatusResult`. -/
structure StatusResult where
  gpus : List GPUInfo
  processes : List ProcessInfo
  memory : MemoryInfo
  metrics : Metrics
  events : List Event
  caps : Capabilities
  deriving DecidableEq, Repr

/-- Outcomes of the external world consumed by one daemon operation:
checkpoint-tool results, `gpu.ProcessGPUMem` observations, the clock, the
log-file creation and process-spawn outcomes, the log-file contents, and
the `gpu.QueryGPUs` / `gpu.HostMemInfo` / `gpu.DriverVersion` answers. -/
structure OpEnv where
  ckpt : CkptEnv := {}
  memSample : Int := 0
  memOf : Nat → Int := fun _ => 0
  now : Nat := 0
  logCreateErr : Option String := none
  startPid : Except String Nat := .ok 0
  logsData : Except String String := .ok ""
  gpus : List GPUInfo := []
  hostMem : Int × Int := (0, 0)
  driverVersion : String := ""

/-- Go `%v` rendering of a string slice, as used in run details/logs. -/
def goSlice (l : List String) : String :=
  "[" ++ String.intercalate " " l ++ "]"

/-- Embeds `Daemon.Run` (daemon core lines 86-163).  The spawned pid and the
log-file creation outcome come from the environment; the VRAM-sampler
goroutine it also starts mutates only `MemMB` and is modelled as the
separate `Daemon.sampleMem` step. -/
def Daemon.Run (d : Daemon) (params : RunParams) (env : OpEnv) :
    Daemon × List SysAction × Except DErr RunResult :=
  match findProc d.procs params.name with
  | some _ => (d, [], .error (.alreadyExists params.name))
  | none =>
    if params.cmd = [] then (d, [], .error .emptyCommand)
    else
      match env.logCreateErr with
      | some m => (d, [], .error (.creatingLog m))
      | none =>
        match env.startPid with
        | .error m => (d, [], .error (.startingProcess m))
        | .ok pid =>
          let logPath := d.logDir ++ "/" ++ params.name ++ ".log"
          let p : Proc :=
            { name := params.name, pid := pid, state := .active,
              gpu := params.gpu, memMB := 0, started := env.now,
              logPath := logPath }
          let d1 := { d with
            procs := (params.name, p) :: d.procs,
            metrics := { d.metrics with coldStarts := d.metrics.coldStarts + 1 } }
          let d2 := d1.emit
            { type := "run", process := params.name,
              detail := "pid=" ++ toString pid ++ " gpu=" ++ toString params.gpu
                ++ " cmd=" ++ goSlice params.cmd } env.now
          (d2, [], .ok { name := params.name, pid := pid })

/-- Embeds `Daemon.Freeze` (daemon core lines 165-210). -/
def Daemon.Freeze (d : Daemon) (name : String) (env : OpEnv) :
    Daemon × List SysAction × Except DErr FreezeResult :=
  match findProc d.procs name with
  | none => (d, [], .error (.notFound name))
  | some p =>
    if p.state ≠ .active then
      (d, [], .error (.wrongStateNotActive name p.state))
    else if d.cudaAvailable = false then
      (d, [], .error .cudaNotAvailable)
    else
      let p1 := refreshMem p env.memSample
      let dMem := { d with procs := updateProc d.procs name fun _ => p1 }
      match CUDA.Freeze d.cudaAvailable env.ckpt with
      | ((_, some e), acts) =>
          (dMem, acts.map .tool, .error (.cudaFreeze e))
      | ((dur, none), acts) =>
          let freezes := d.metrics.freezes + 1
          let ftot := d.freezeTotalMs + dur
          let m1 := { d.metrics with
            freezes := freezes, avgFreezeMs := ftot.tdiv (freezes : Int) }
          let d1 := { dMem with
            procs := updateProc dMem.procs name fun _ => { p1 with state := .frozen },
            freezeTotalMs := ftot,
            metrics := m1 }
          let d2 := d1.emit
            { type := "freeze", process := name, duration := dur,
              detail := "→ RAM (" ++ toString p1.memMB ++ " MB)" } env.now
          (d2, acts.map .tool ++ [.signal p.pid .sigstop],
           .ok { name := name, durationMs := dur, memMB := p1.memMB })

/-- Embeds `Daemon.Thaw` (daemon core lines 212-251). -/
def Daemon.Thaw (d : Daemon) (name : String) (env : OpEnv) :
    Daemon × List SysAction × Except DErr ThawResult :=
  match findProc d.procs name with
  | none => (d, [], .error (.notFound name))
  | some p =>
    if p.state ≠ .frozen then
      (d, [], .error (.wrongStateNotFrozen name p.state))
    else
      match CUDA.Thaw d.cudaAvailable env.ckpt with
      | ((_, some e), acts) =>
          (d, .signal p.pid .sigcont :: acts.map .tool ++ [.signal p.pid .sigstop],
           .error (.cudaThaw e))
      | ((dur, none), acts) =>
          let thaws := d.metrics.thaws + 1
          let ttot := d.thawTotalMs + dur
          let m1 := { d.metrics with
            thaws := thaws, avgThawMs := ttot.tdiv (thaws : Int) }
          let d1 := { d with
            procs := updateProc d.procs name fun _ => { p with state := .active },
            thawTotalMs := ttot,
            metrics := m1 }
          let d2 := d1.emit
            { type := "thaw", process := p.name, duration := dur,
              detail := "← RAM (" ++ toString p.memMB ++ " MB)" } env.now
          (d2, .signal p.pid .sigcont :: acts.map .tool,
           .ok { name := p.name, durationMs := dur, memMB := p.memMB })

/-- Embeds `Daemon.Kill` (daemon core lines 253-281). -/
def Daemon.Kill (d : Daemon) (name : String) (env : OpEnv) :
    Daemon × List SysAction × Except DErr Unit :=
  match findProc d.procs name with
  | none => (d, [], .error (.notFound name))
  | some p =>
    let sigs :=
      (if p.state = .frozen then [SysAction.signal p.pid .sigcont] else [])
        ++ [.signal p.pid .sigterm, .schedKill p.pid]
    let d1 := { d with
      procs := updateProc d.procs name fun q => { q with state := .dead } }
    let d2 := d1.emit { type := "kill", process := name } env.now
    let d3 := { d2 with procs := eraseProc d2.procs name }
    (d3, sigs, .ok ())

/-- The tail of `Daemon.Migrate` shared by the Active and non-Active
entry paths (daemon core lines 307-332): CONT; RestoreOnDevice; Unlock;
commit state and GPU; bump metrics; emit. -/
def Daemon.migrateRest (d : Daemon) (p : Proc) (fromGPU : Int)
    (preActs : List SysAction) (params : MigrateParams) (env : OpEnv) :
    Daemon × List SysAction × Except DErr MigrateResult :=
  let acts1 := preActs ++ [.signal p.pid .sigcont]
  match CUDA.RestoreOnDevice d.cudaAvailable env.ckpt params.gpu with
  | ((_, some e), ra) =>
      (d, acts1 ++ ra.map .tool, .error (.restoreOnGpu params.gpu e))
  | ((dur, none), ra) =>
      match CUDA.Unlock d.cudaAvailable env.ckpt with
      | ((_, some e), ua) =>
          (d, acts1 ++ ra.map .tool ++ ua.map .tool,
           .error (.unlockAfterMigrate e))
      | ((_, none), ua) =>
          let d1 := { d with
            procs := updateProc d.procs params.name fun q =>
              { q with state := .active, gpu := params.gpu },
            metrics := { d.metrics with migrations := d.metrics.migrations + 1 } }
          let d2 := d1.emit
            { type := "migrate", process := params.name, duration := dur,
              detail := "GPU " ++ toString fromGPU ++ " → GPU " ++ toString params.gpu }
            env.now
          (d2, acts1 ++ ra.map .tool ++ ua.map .tool,
           .ok { name := params.name, fromGPU := fromGPU, toGPU := params.gpu })

/-- Embeds `Daemon.Migrate` (daemon core lines 283-333).  There is no
source-state precondition: a non-Active entry skips the
lock+checkpoint+STOP prologue. -/
def Daemon.Migrate (d : Daemon) (params : MigrateParams) (env : OpEnv) :
    Daemon × List SysAction × Except DErr MigrateResult :=
  match findProc d.procs params.name with
  | none => (d, [], .error (.notFound params.name))
  | some p =>
    if d.cudaAvailable = false then
      (d, [], .error .cudaNotAvailable)
    else
      let fromGPU := p.gpu
      if p.state = .active then
        let p1 := refreshMem p env.memSample
        let dMem := { d with procs := updateProc d.procs params.name fun _ => p1 }
        match CUDA.Freeze d.cudaAvailable env.ckpt with
        | ((_, some e), acts) =>
            (dMem, acts.map .tool, .error (.freezeForMigrate e))
        | ((_, none), acts) =>
            dMem.migrateRest p1 fromGPU
              (acts.map .tool ++ [.signal p.pid .sigstop]) params env
      else
        d.migrateRest p fromGPU [] params env

/-- The state mutation done by `Daemon.monitorProcess` when the child
exits (daemon core lines 570-595): mark Dead (unless already Dead or
gone) and emit an exit event. -/
def Daemon.monitorExit (d : Daemon) (name : String) (detail : String) (now : Nat) :
    Daemon :=
  match findProc d.procs name with
  | none => d
  | some p =>
    if p.state = .dead then d
    else
      let d1 := { d with
        procs := updateProc d.procs name fun q => { q with state := .dead } }
      d1.emit { type := "exit", process := name, detail := detail } now

/-- The VRAM-sampler goroutine's single mutation (daemon core lines
138-153): while the entry is Active, a positive sample updates `MemMB`.
(`Status` performs the same refresh through the shared pointer.) -/
def Daemon.sampleMem (d : Daemon) (name : String) (mem : Int) : Daemon :=
  match findProc d.procs name with
  | none => d
  | some p =>
    if p.state = .active then
      { d with procs := updateProc d.procs name fun q => refreshMem q mem }
    else d

/-- Embeds `formatDuration` (daemon core lines 597-610), over a duration in
whole seconds. -/
def formatDuration (secs : Nat) : String :=
  if secs < 60 then toString secs ++ "s"
  else if secs < 3600 then
    toString (secs / 60) ++ "m" ++ toString (secs % 60) ++ "s"
  else if secs < 86400 then
    toString (secs / 3600) ++ "h" ++ toString ((secs / 60) % 60) ++ "m"
  else
    toString (secs / 86400) ++ "d" ++ toString ((secs / 3600) % 24) ++ "h"

/-- The per-entry body of `Daemon.Status`'s loop (daemon core lines
345-368): refresh the VRAM of an Active entry, derive the tier
(`ram` iff Frozen, else `gpu`), and build the `ProcessInfo`. -/
def toProcessInfo (memOf : Nat → Int) (now : Nat) (p : Proc) : ProcessInfo :=
  let p1 := if p.state = .active then refreshMem p (memOf p.pid) else p
  { name := p1.name, pid := p1.pid, state := p1.state, gpu := p1.gpu,
    memMB := p1.memMB, age := formatDuration (now - p1.started),
    started := p1.started,
    tier := if p1.state = .frozen then TierRAM else TierGPU }

/-- The sort key of `Daemon.Status`'s `sort.Slice` comparator (daemon
core lines 370-377).  The Go literal map holds `StateActive: 0,
StateFrozen: 1, StateDead: 2`; `StateHibernated` is absent from it, so a
Go map read yields the zero value 0 for it. -/
def sortOrder : ProcessState → Nat
  | .active => 0
  | .frozen => 1
  | .dead => 2
  | .hibernated => 0

/-- The comparator key order of `Daemon.Status`'s `sort.Slice`: the
resulting slice is nondecreasing in `sortOrder` of the state. -/
def stateLE (a b : ProcessInfo) : Prop :=
  sortOrder a.state ≤ sortOrder b.state

instance : DecidableRel stateLE := fun _ _ => Nat.decLe _ _

instance : IsTotal ProcessInfo stateLE :=
  ⟨fun _ _ => Nat.le_total _ _⟩

instance : IsTrans ProcessInfo stateLE :=
  ⟨fun _ _ _ => Nat.le_trans⟩

/-- The `sort.Slice` call of `Daemon.Status`: sort the process list by
`sortOrder` of the state (the algorithm Go uses is unspecified and
unstable; any sort by the same key is a faithful model). -/
def sortProcs (l : List ProcessInfo) : List ProcessInfo :=
  l.insertionSort stateLE

/-- Embeds `Daemon.Status` (daemon core lines 335-400).  `iter` is the sequence
in which Go's map iteration visits the entries — an arbitrary
permutation of the registry's processes, passed in explicitly. -/
def Daemon.Status (d : Daemon) (iter : List Proc) (env : OpEnv) : StatusResult :=
  let infos := iter.map (toProcessInfo env.memOf env.now)
  let snapshotsMB :=
    (iter.filter fun p => p.state = .frozen).foldl (fun acc p => acc + p.memMB) 0
  let recent :=
    if d.events.length > 20 then d.events.drop (d.events.length - 20) else d.events
  { gpus := env.gpus,
    processes := sortProcs infos,
    memory := { hostRAMTotalMB := env.hostMem.1, hostRAMFreeMB := env.hostMem.2,
                hostRAMBudgetMB := d.ramBudgetMB, snapshotsMB := snapshotsMB },
    metrics := d.metrics,
    events := recent,
    caps := { cudaCheckpoint := d.cudaAvailable,
              driverVersion := env.driverVersion } }

/-- Recursion of `splitLines` (daemon core lines 637-653). -/
def splitLinesGo : List Char → List Char → List String
  | [], acc => if acc.isEmpty then [] else [String.mk acc.reverse]
  | c :: rest, acc =>
    if c = '\n' then String.mk acc.reverse :: splitLinesGo rest []
    else splitLinesGo rest (c :: acc)

/-- Embeds `splitLines` (daemon core lines 637-653): split on newlines; the
empty string yields no lines; a trailing newline adds no empty line. -/
def splitLines (s : String) : List String :=
  if s = "" then [] else splitLinesGo s.data []

/-- Embeds `Daemon.Logs` (daemon core lines 402-422); the file contents come
from the environment. -/
def Daemon.Logs (d : Daemon) (name : String) (lines : Int) (env : OpEnv) :
    Daemon × List SysAction × Except DErr (List String) :=
  match findProc d.procs name with
  | none => (d, [], .error (.notFound name))
  | some _ =>
    match env.logsData with
    | .error m => (d, [], .error (.readingLogs m))
    | .ok data =>
      let allLines := splitLines data
      let out :=
        if 0 < lines ∧ lines < (allLines.length : Int) then
          allLines.drop (allLines.length - lines.toNat)
        else allLines
      (d, [], .ok out)

/-- A `json.RawMessage` params payload, represented by the outcome each
of the four unmarshal targets would produce on it. -/
structure RawParams where
  runP : Except String RunParams := .error "unexpected end of JSON input"
  nameP : Except String String := .error "unexpected end of JSON input"
  migrateP : Except String MigrateParams := .error "unexpected end of JSON input"
  logsP : Except String LogsParams := .error "unexpected end of JSON input"

/-- Embeds `protocol.Request`. -/
structure Request where
  method : String
  params : RawParams := {}

/-- The payload of a successful `protocol.Response`. -/
inductive RespVal
  | runR (r : RunResult)
  | freezeR (r : FreezeResult)
  | thawR (r : ThawResult)
  | strR (s : String)
  | migrateR (r : MigrateResult)
  | statusR (s : StatusResult)
  | logsR (lines : List String)

/-- Embeds `protocol.Response`: `OkResponse` / `ErrResponse`. -/
inductive Response
  | ok (v : RespVal)
  | err (msg : String)

/-- Embeds `Daemon.Handle` (daemon core lines 444-522): bump
`metrics.Requests`, then dispatch on the method; parameter unmarshal
failures yield `bad params` errors and unknown methods `unknown method`
errors, both after the bump. -/
def Daemon.Handle (d : Daemon) (req : Request) (env : OpEnv) :
    Daemon × List SysAction × Response :=
  let d1 := { d with
    metrics := { d.metrics with requests := d.metrics.requests + 1 } }
  match req.method with
  | "run" =>
    match req.params.runP with
    | .error m => (d1, [], .err ("bad params: " ++ m))
    | .ok p =>
      match d1.Run p env with
      | (d2, acts, .error e) => (d2, acts, .err e.render)
      | (d2, acts, .ok r) => (d2, acts, .ok (.runR r))
  | "freeze" =>
    match req.params.nameP with
    | .error m => (d1, [], .err ("bad params: " ++ m))
    | .ok n =>
      match d1.Freeze n env with
      | (d2, acts, .error e) => (d2, acts, .err e.render)
      | (d2, acts, .ok r) => (d2, acts, .ok (.freezeR r))
  | "thaw" =>
    match req.params.nameP with
    | .error m => (d1, [], .err ("bad params: " ++ m))
    | .ok n =>
      match d1.Thaw n env with
      | (d2, acts, .error e) => (d2, acts, .err e.render)
      | (d2, acts, .ok r) => (d2, acts, .ok (.thawR r))
  | "kill" =>
    match req.params.nameP with
    | .error m => (d1, [], .err ("bad params: " ++ m))
    | .ok n =>
      match d1.Kill n env with
      | (d2, acts, .error e) => (d2, acts, .err e.render)
      | (d2, acts, .ok _) => (d2, acts, .ok (.strR "ok"))
  | "migrate" =>
    match req.params.migrateP with
    | .error m => (d1, [], .err ("bad params: " ++ m))
    | .ok p =>
      match d1.Migrate p env with
      | (d2, acts, .error e) => (d2, acts, .err e.render)
      | (d2, acts, .ok r) => (d2, acts, .ok (.migrateR r))
  | "status" =>
    (d1, [], .ok (.statusR (d1.Status (d1.procs.map Prod.snd) env)))
  | "logs" =>
    match req.params.logsP with
    | .error m => (d1, [], .err ("bad params: " ++ m))
    | .ok p =>
      let lines := if p.lines = 0 then 50 else p.lines
      match d1.Logs p.name lines env with
      | (d2, acts, .error e) => (d2, acts, .err e.render)
      | (d2, acts, .ok r) => (d2, acts, .ok (.logsR r))
  | m => (d1, [], .err ("unknown method: " ++ m))

/-- One parsed request line of `Server.handleConn` (server.go lines
70-86): a `subscribe` request is intercepted before the daemon router —
`handleSubscribe` answers with the current status and never calls
`Daemon.Handle`; every other request goes through `Daemon.Handle`. -/
def handleConn (d : Daemon) (req : Request) (env : OpEnv) :
    Daemon × List SysAction × Response :=
  if req.method = "subscribe" then
    (d, [], .ok (.statusR (d.Status (d.procs.map Prod.snd) env)))
  else
    d.Handle req env

/-! ## Concrete states used by the witness theorems -/

/-- A daemon as `New` builds it, with the checkpoint tool detected. -/
def dW0 : Daemon := { cudaAvailable := true }

/-- A simple run request. -/
def pW : RunParams := { name := "a", cmd := ["sleep", "3600"], gpu := 0 }

/-- A spawn environment whose child gets pid 42. -/
def eW0 : OpEnv := { startPid := .ok 42 }

/-- State `dW0` after `Run(a)`. -/
def dW1 : Daemon := (dW0.Run pW eW0).1

/-- State `dW1` after a successful `Freeze(a)`. -/
def dW2 : Daemon := (dW1.Freeze "a" {}).1

/-- State `dW2` after a successful `Thaw(a)`. -/
def dW3 : Daemon := (dW2.Thaw "a" {}).1

/-- The Active entry `Run(a)` creates in `dW1`. -/
def pA : Proc :=
  { name := "a", pid := 42, state := .active, gpu := 0, memMB := 0,
    started := 0, logPath := "/tmp/gpusched/logs/a.log" }

/-- The Frozen entry held in `dW2`. -/
def pFr : Proc := { pA with state := .frozen }

/-- The freeze result of `dW1.Freeze "a"`. -/
def frW : FreezeResult := { name := "a", durationMs := 0, tier := "", memMB := 0 }

/-- A daemon without the checkpoint tool, after `Run(a)`. -/
def dNA : Daemon := (({} : Daemon).Run pW eW0).1

/-- An environment whose Restore invocation fails. -/
def eRf : OpEnv := { ckpt := { restoreR := { dur := 7, err := some "boom" } } }

/-- No entry of the registry is Hibernated.  The daemon core has no
operation that produces `StateHibernated`. -/
def NoHib (r : Registry) : Prop :=
  ∀ kv ∈ r, kv.2.state ≠ ProcessState.hibernated

/-- The daemon states reachable from a freshly constructed daemon
(`New`: empty registry, zero metrics, no events) through the operations
of the daemon core: the five lifecycle operations, the exit watcher, the
VRAM sampler, and whole connection-handled requests. -/
inductive Reachable : Daemon → Prop
  | init (logDir : String) (budget : Int) (avail : Bool) :
      Reachable { cudaAvailable := avail, logDir := logDir, ramBudgetMB := budget }
  | run (d : Daemon) (params : RunParams) (env : OpEnv) :
      Reachable d → Reachable (d.Run params env).1
  | freeze (d : Daemon) (n : String) (env : OpEnv) :
      Reachable d → Reachable (d.Freeze n env).1
  | thaw (d : Daemon) (n : String) (env : OpEnv) :
      Reachable d → Reachable (d.Thaw n env).1
  | kill (d : Daemon) (n : String) (env : OpEnv) :
      Reachable d → Reachable (d.Kill n env).1
  | migrate (d : Daemon) (params : MigrateParams) (env : OpEnv) :
      Reachable d → Reachable (d.Migrate params env).1
  | exitW (d : Daemon) (n detail : String) (now : Nat) :
      Reachable d → Reachable (d.monitorExit n detail now)
  | sample (d : Daemon) (n : String) (mem : Int) :
      Reachable d → Reachable (d.sampleMem n mem)
  | conn (d : Daemon) (req : Request) (env : OpEnv) :
      Reachable d → Reachable (handleConn d req env).1

/-- Modelled from the spec (§6): the claimed sort order of the status
process list, "sorted by state (Active, Frozen, Hibernated, Dead)". -/
def specOrder : ProcessState → Nat
  | .active => 0
  | .frozen => 1
  | .hibernated => 2
  | .dead => 3

/-! ## Registry and operation lemmas -/

@[simp]
theorem findProc_nil (n : String) : findProc [] n = none := rfl

@[simp]
theorem findProc_cons (k : String) (v : Proc) (rest : Registry) (n : String) :
    findProc ((k, v) :: rest) n = if k = n then some v else findProc rest n := rfl

@[simp]
theorem updateProc_nil (n : String) (f : Proc → Proc) : updateProc [] n f = [] := rfl

@[simp]
theorem updateProc_cons (k : String) (v : Proc) (rest : Registry) (n : String)
    (f : Proc → Proc) :
    updateProc ((k, v) :: rest) n f =
      (if k = n then (k, f v) else (k, v)) :: updateProc rest n f := by
  by_cases h : k = n <;> simp [updateProc, h]

@[simp]
theorem eraseProc_nil (n : String) : eraseProc [] n = [] := rfl

@[simp]
theorem eraseProc_cons (k : String) (v : Proc) (rest : Registry) (n : String) :
    eraseProc ((k, v) :: rest) n =
      if k = n then eraseProc rest n else (k, v) :: eraseProc rest n := by
  by_cases h : k = n <;> simp [eraseProc, h]

theorem findProc_updateProc_self (r : Registry) (n : String) (f : Proc → Proc) :
    findProc (updateProc r n f) n = (findProc r n).map f := by
  induction r with
  | nil => rfl
  | cons kv rest ih =>
    obtain ⟨k, v⟩ := kv
    by_cases h : k = n
    · simp [h]
    · simp [h, ih]

theorem findProc_eraseProc_self (r : Registry) (n : String) :
    findProc (eraseProc r n) n = none := by
  induction r with
  | nil => rfl
  | cons kv rest ih =>
    obtain ⟨k, v⟩ := kv
    by_cases h : k = n
    · simp [h, ih]
    · simp [h, ih]

@[simp]
theorem emit_procs (d : Daemon) (e : Event) (now : Nat) :
    (d.emit e now).procs = d.procs := rfl

@[simp]
theorem emit_metrics (d : Daemon) (e : Event) (now : Nat) :
    (d.emit e now).metrics = d.metrics := rfl

@[simp]
theorem refreshMem_name (p : Proc) (m : Int) : (refreshMem p m).name = p.name := by
  unfold refreshMem; split <;> rfl

@[simp]
theorem refreshMem_pid (p : Proc) (m : Int) : (refreshMem p m).pid = p.pid := by
  unfold refreshMem; split <;> rfl

@[simp]
theorem refreshMem_state (p : Proc) (m : Int) : (refreshMem p m).state = p.state := by
  unfold refreshMem; split <;> rfl

@[simp]
theorem refreshMem_gpu (p : Proc) (m : Int) : (refreshMem p m).gpu = p.gpu := by
  unfold refreshMem; split <;> rfl

@[simp]
theorem refreshMem_started (p : Proc) (m : Int) :
    (refreshMem p m).started = p.started := by
  unfold refreshMem; split <;> rfl

/-- Success characterization of `Daemon.Run`: the new entry is Active on
the requested GPU with the spawned pid. -/
theorem Run_ok {d : Daemon} {params : RunParams} {env : OpEnv}
    {d' : Daemon} {acts : List SysAction} {res : RunResult}
    (h : d.Run params env = (d', acts, .ok res)) :
    findProc d.procs params.name = none ∧
    res.name = params.name ∧
    findProc d'.procs params.name =
      some { name := params.name, pid := res.pid, state := .active,
             gpu := params.gpu, memMB := 0, started := env.now,
             logPath := d.logDir ++ "/" ++ params.name ++ ".log" } := by
  unfold Daemon.Run at h
  cases hf : findProc d.procs params.name with
  | some q => rw [hf] at h; simp at h
  | none =>
    rw [hf] at h
    by_cases hc : params.cmd = []
    · simp [hc] at h
    · rw [if_neg hc] at h
      cases hl : env.logCreateErr with
      | some m => rw [hl] at h; simp at h
      | none =>
        rw [hl] at h
        cases hs : env.startPid with
        | error m => rw [hs] at h; simp at h
        | ok pid =>
          rw [hs] at h
          simp only [Prod.mk.injEq] at h
          obtain ⟨hd, -, hres⟩ := h
          have hres' : res = { name := params.name, pid := pid } := by
            cases hres; rfl
          subst hd
          refine ⟨rfl, by simp [hres'], ?_⟩
          simp [Daemon.emit, findProc, hres']

theorem CUDA_Freeze_success (env : CkptEnv) (hl : env.lockR.err = none)
    (hck : env.checkpointR.err = none) :
    CUDA.Freeze true env =
      ((env.lockR.dur + env.checkpointR.dur, none), [.lock, .checkpoint]) := by
  simp [CUDA.Freeze, runTool, hl, hck]

theorem CUDA_Freeze_lockfail (env : CkptEnv) (m : String)
    (hl : env.lockR.err = some m) :
    CUDA.Freeze true env =
      ((env.lockR.dur, some (.wrap "lock" (.tool m))), [.lock]) := by
  simp [CUDA.Freeze, runTool, hl]

theorem CUDA_Freeze_ckptfail (env : CkptEnv) (m : String)
    (hl : env.lockR.err = none) (hck : env.checkpointR.err = some m) :
    CUDA.Freeze true env =
      ((env.lockR.dur + env.checkpointR.dur,
        some (.wrap "checkpoint" (.tool m))), [.lock, .checkpoint, .unlock]) := by
  simp [CUDA.Freeze, runTool, hl, hck]

theorem CUDA_Freeze_notavail (env : CkptEnv) :
    CUDA.Freeze false env =
      ((0, some (.wrap "lock" .notAvailable)), [.lock]) := by
  simp [CUDA.Freeze, runTool]

theorem CUDA_Thaw_success (env : CkptEnv) (hr : env.restoreR.err = none)
    (hu : env.unlockR.err = none) :
    CUDA.Thaw true env =
      ((env.restoreR.dur + env.unlockR.dur, none), [.restore, .unlock]) := by
  simp [CUDA.Thaw, runTool, hr, hu]

/-- On any failure of the Restore step (tool failure or tool absent),
the compound Thaw stops after the restore attempt. -/
theorem CUDA_Thaw_restfail (avail : Bool) (env : CkptEnv) (rd : Int) (e : CkptErr)
    (h : runTool avail env.restoreR = (rd, some e)) :
    CUDA.Thaw avail env = ((rd, some (.wrap "restore" e)), [.restore]) := by
  unfold CUDA.Thaw
  rw [h]

theorem CUDA_Thaw_notavail (env : CkptEnv) :
    CUDA.Thaw false env =
      ((0, some (.wrap "restore" .notAvailable)), [.restore]) := by
  simp [CUDA.Thaw, runTool]

/-- Success characterization of `Daemon.Freeze`: it requires an Active
entry and the available tool, commits the best-effort memory refresh,
flips only the state to Frozen, and returns a result whose `tier` is the
zero value `""`. -/
theorem Freeze_ok {d : Daemon} {n : String} {env : OpEnv}
    {d' : Daemon} {acts : List SysAction} {fr : FreezeResult}
    (h : d.Freeze n env = (d', acts, .ok fr)) :
    ∃ p, findProc d.procs n = some p ∧ p.state = .active ∧
      d.cudaAvailable = true ∧
      env.ckpt.lockR.err = none ∧ env.ckpt.checkpointR.err = none ∧
      findProc d'.procs n =
        some { refreshMem p env.memSample with state := .frozen } ∧
      fr = { name := n,
             durationMs := env.ckpt.lockR.dur + env.ckpt.checkpointR.dur,
             tier := "",
             memMB := (refreshMem p env.memSample).memMB } := by
  unfold Daemon.Freeze at h
  cases hf : findProc d.procs n with
  | none => rw [hf] at h; simp at h
  | some p =>
    rw [hf] at h
    dsimp only at h
    refine ⟨p, rfl, ?_⟩
    by_cases hst : p.state = .active
    · rw [if_neg (by simpa using hst)] at h
      cases hcv : d.cudaAvailable with
      | false => rw [hcv] at h; simp at h
      | true =>
        rw [hcv] at h
        rw [if_neg (by simp)] at h
        cases hl : env.ckpt.lockR.err with
        | some m => rw [CUDA_Freeze_lockfail _ _ hl] at h; simp at h
        | none =>
          cases hck : env.ckpt.checkpointR.err with
          | some m => rw [CUDA_Freeze_ckptfail _ _ hl hck] at h; simp at h
          | none =>
            rw [CUDA_Freeze_success _ hl hck] at h
            dsimp only at h
            simp only [Prod.mk.injEq] at h
            obtain ⟨hd, -, hfr⟩ := h
            refine ⟨hst, rfl, rfl, rfl, ?_, ?_⟩
            · rw [← hd]
              simp [findProc_updateProc_self, hf]
            · cases hfr; rfl
    · rw [if_pos (by simpa using hst)] at h
      simp at h

/-- Success characterization of `Daemon.Thaw`: it requires a Frozen
entry and flips only the state back to Active. -/
theorem Thaw_ok {d : Daemon} {n : String} {env : OpEnv}
    {d' : Daemon} {acts : List SysAction} {tr : ThawResult}
    (h : d.Thaw n env = (d', acts, .ok tr)) :
    ∃ p, findProc d.procs n = some p ∧ p.state = .frozen ∧
      findProc d'.procs n = some { p with state := .active } ∧
      tr = { name := p.name,
             durationMs := env.ckpt.restoreR.dur + env.ckpt.unlockR.dur,
             fromTier := "",
             memMB := p.memMB } := by
  unfold Daemon.Thaw at h
  cases hf : findProc d.procs n with
  | none => rw [hf] at h; simp at h
  | some p =>
    rw [hf] at h
    dsimp only at h
    refine ⟨p, rfl, ?_⟩
    by_cases hst : p.state = .frozen
    · rw [if_neg (by simpa using hst)] at h
      cases hcv : d.cudaAvailable with
      | false => rw [hcv, CUDA_Thaw_notavail] at h; simp at h
      | true =>
        rw [hcv] at h
        cases hr : env.ckpt.restoreR.err with
        | some m =>
          rw [CUDA_Thaw_restfail true env.ckpt env.ckpt.restoreR.dur (.tool m)
            (by simp [runTool, hr])] at h
          simp at h
        | none =>
          cases hu : env.ckpt.unlockR.err with
          | some m => simp [CUDA.Thaw, runTool, hr, hu] at h
          | none =>
            rw [CUDA_Thaw_success _ hr hu] at h
            dsimp only at h
            simp only [Prod.mk.injEq] at h
            obtain ⟨hd, -, htr⟩ := h
            refine ⟨hst, ?_, ?_⟩
            · rw [← hd]
              simp [findProc_updateProc_self, hf]
            · cases htr; rfl
    · rw [if_pos (by simpa using hst)] at h
      simp at h

/-! ## Claim theorems -/

/-- C1: for an entry created by `Run` with name `n` and GPU `g` (state
Active), a successful `Freeze(n)` followed by a successful `Thaw(n)`
returns the entry to state Active with the same name, the same pid, and
the same assigned GPU as before the Freeze. -/
theorem run_freeze_thaw_roundtrip
    (d0 d1 d2 d3 : Daemon) (params : RunParams) (env0 env1 env2 : OpEnv)
    (a1 a2 a3 : List SysAction) (res : RunResult) (fr : FreezeResult)
    (tr : ThawResult)
    (hrun : d0.Run params env0 = (d1, a1, .ok res))
    (hfr : d1.Freeze params.name env1 = (d2, a2, .ok fr))
    (hth : d2.Thaw params.name env2 = (d3, a3, .ok tr)) :
    ∃ q, findProc d3.procs params.name = some q ∧
      q.state = .active ∧ q.name = params.name ∧
      q.pid = res.pid ∧ q.gpu = params.gpu := by
  obtain ⟨-, -, hpost⟩ := Run_ok hrun
  obtain ⟨p, hp, -, -, -, -, hpost2, -⟩ := Freeze_ok hfr
  obtain ⟨p2, hp2, -, hpost3, -⟩ := Thaw_ok hth
  have hpe : p =
      { name := params.name, pid := res.pid, state := .active,
        gpu := params.gpu, memMB := 0, started := env0.now,
        logPath := d0.logDir ++ "/" ++ params.name ++ ".log" } :=
    Option.some.inj (hp.symm.trans hpost)
  have hp2e : p2 = { refreshMem p env1.memSample with state := .frozen } :=
    Option.some.inj (hp2.symm.trans hpost2)
  refine ⟨{ p2 with state := .active }, hpost3, rfl, ?_, ?_, ?_⟩ <;>
    simp [hp2e, hpe]

/-- C1 witness at a concrete run/freeze/thaw chain. -/
theorem run_freeze_thaw_roundtrip_witness :
    ∃ q, findProc dW3.procs "a" = some q ∧
      q.state = .active ∧ q.name = "a" ∧ q.pid = 42 ∧ q.gpu = 0 :=
  run_freeze_thaw_roundtrip dW0 dW1 dW2 dW3 pW eW0 {} {}
    (dW0.Run pW eW0).2.1 (dW1.Freeze "a" {}).2.1 (dW2.Thaw "a" {}).2.1
    { name := "a", pid := 42 } frW
    { name := "a", durationMs := 0, fromTier := "", memMB := 0 }
    rfl rfl rfl

/-- C2 counterexample: the entry `Freeze` leaves behind carries no
frozen-at timestamp.  Freezing `a` at time 5 produces exactly the
pre-freeze entry with only the state flipped (its only timestamp is the
start time 0), and freezing at time 99 produces the identical registry —
the freeze time is recorded nowhere on the entry. -/
theorem freeze_stamps_no_frozen_at_cex :
    findProc ((dW1.Freeze "a" { now := 5 }).1.procs) "a" =
      some { name := "a", pid := 42, state := .frozen, gpu := 0, memMB := 0,
             started := 0, logPath := "/tmp/gpusched/logs/a.log" } ∧
    (dW1.Freeze "a" { now := 5 }).1.procs =
      (dW1.Freeze "a" { now := 99 }).1.procs := by
  exact ⟨rfl, rfl⟩

/-- C2 amended: a `Proc` has no frozen-at field; the Active→Frozen
transition performed by a successful `Freeze` changes only the entry's
state (after the best-effort memory refresh) — the resulting entry is
fully determined by the pre-freeze entry and the memory sample, with the
freeze time stamped nowhere on it. -/
theorem freeze_updates_only_state
    (d : Daemon) (n : String) (env : OpEnv) (d' : Daemon)
    (acts : List SysAction) (fr : FreezeResult)
    (h : d.Freeze n env = (d', acts, .ok fr)) :
    ∃ p, findProc d.procs n = some p ∧
      findProc d'.procs n =
        some { refreshMem p env.memSample with state := .frozen } := by
  obtain ⟨p, hp, -, -, -, -, hpost, -⟩ := Freeze_ok h
  exact ⟨p, hp, hpost⟩

/-- C2 amended-claim witness at a concrete freeze. -/
theorem freeze_updates_only_state_witness :
    ∃ p, findProc dW1.procs "a" = some p ∧
      findProc dW2.procs "a" =
        some { refreshMem p 0 with state := .frozen } :=
  freeze_updates_only_state dW1 "a" {} dW2 (dW1.Freeze "a" {}).2.1 frW rfl

/-- C3 counterexample: a successful freeze's result leaves `tier` at the
Go zero value `""`, not `"ram"`. -/
theorem freeze_result_tier_cex :
    (dW1.Freeze "a" {}).2.2 =
      .ok ({ name := "a", durationMs := 0, tier := "", memMB := 0 } :
        FreezeResult) ∧
    ("" : String) ≠ TierRAM := by
  exact ⟨rfl, by decide⟩

/-- C3 amended: a successful freeze result carries the process name, the
duration in milliseconds, and the memory footprint in MB, but its tier
field is never set and stays the zero value `""`. -/
theorem freeze_result_fields
    (d : Daemon) (n : String) (env : OpEnv) (d' : Daemon)
    (acts : List SysAction) (fr : FreezeResult)
    (h : d.Freeze n env = (d', acts, .ok fr)) :
    ∃ p, findProc d.procs n = some p ∧
      fr = { name := n,
             durationMs := env.ckpt.lockR.dur + env.ckpt.checkpointR.dur,
             tier := "",
             memMB := (refreshMem p env.memSample).memMB } := by
  obtain ⟨p, hp, -, -, -, -, -, hfr⟩ := Freeze_ok h
  exact ⟨p, hp, hfr⟩

/-- C3 amended-claim witness at a concrete freeze. -/
theorem freeze_result_fields_witness :
    ∃ p, findProc dW1.procs "a" = some p ∧
      frW = { name := "a", durationMs := 0 + 0, tier := "",
              memMB := (refreshMem p 0).memMB } :=
  freeze_result_fields dW1 "a" {} dW2 (dW1.Freeze "a" {}).2.1 frW rfl

/-- C4: when the checkpoint-adapter restore step fails during `Thaw` of
a Frozen entry (after CONT was delivered), the daemon resends STOP, the
whole daemon state — entry, metrics, events — is exactly unchanged, and
the error is surfaced to the caller. -/
theorem thaw_restore_failure
    (d : Daemon) (n : String) (env : OpEnv) (p : Proc) (rd : Int) (e : CkptErr)
    (hp : findProc d.procs n = some p) (hst : p.state = .frozen)
    (hr : runTool d.cudaAvailable env.ckpt.restoreR = (rd, some e)) :
    d.Thaw n env =
      (d, [.signal p.pid .sigcont, .tool .restore, .signal p.pid .sigstop],
       .error (.cudaThaw (.wrap "restore" e))) := by
  unfold Daemon.Thaw
  rw [hp]
  dsimp only
  rw [if_neg (by simp [hst]), CUDA_Thaw_restfail _ _ _ _ hr]
  rfl

/-- C4 witness: a concrete frozen daemon with a failing Restore. -/
theorem thaw_restore_failure_witness :
    dW2.Thaw "a" eRf =
      (dW2, [.signal 42 .sigcont, .tool .restore, .signal 42 .sigstop],
       .error (.cudaThaw (.wrap "restore" (.tool "boom")))) :=
  thaw_restore_failure dW2 "a" eRf pFr 7 (.tool "boom") rfl rfl rfl

/-- C5: the adapter's compound Freeze runs Lock then Checkpoint; a Lock
failure is returned without attempting Checkpoint; a Checkpoint failure
triggers a best-effort Unlock whose result is ignored, and the
checkpoint failure is returned. -/
theorem cuda_freeze_lock_checkpoint (env : CkptEnv) :
    (∀ m, env.lockR.err = some m →
      CUDA.Freeze true env =
        ((env.lockR.dur, some (.wrap "lock" (.tool m))), [.lock])) ∧
    (∀ m, env.lockR.err = none → env.checkpointR.err = some m →
      CUDA.Freeze true env =
        ((env.lockR.dur + env.checkpointR.dur,
          some (.wrap "checkpoint" (.tool m))), [.lock, .checkpoint, .unlock])) ∧
    (env.lockR.err = none → env.checkpointR.err = none →
      CUDA.Freeze true env =
        ((env.lockR.dur + env.checkpointR.dur, none), [.lock, .checkpoint])) ∧
    (∀ u, CUDA.Freeze true { env with unlockR := u } = CUDA.Freeze true env) := by
  refine ⟨fun m hm => CUDA_Freeze_lockfail env m hm,
          fun m hl hm => CUDA_Freeze_ckptfail env m hl hm,
          fun hl hm => CUDA_Freeze_success env hl hm, fun u => ?_⟩
  cases hl : env.lockR.err with
  | some m =>
    rw [CUDA_Freeze_lockfail env m hl]
    exact CUDA_Freeze_lockfail { env with unlockR := u } m hl
  | none =>
    cases hck : env.checkpointR.err with
    | some m =>
      rw [CUDA_Freeze_ckptfail env m hl hck]
      exact CUDA_Freeze_ckptfail { env with unlockR := u } m hl hck
    | none =>
      rw [CUDA_Freeze_success env hl hck]
      exact CUDA_Freeze_success { env with unlockR := u } hl hck

/-- C5 witness at a concrete failing Checkpoint outcome. -/
theorem cuda_freeze_lock_checkpoint_witness :
    CUDA.Freeze true
      { lockR := { dur := 2 }, checkpointR := { dur := 3, err := some "oom" } } =
      ((2 + 3, some (.wrap "checkpoint" (.tool "oom"))),
       [.lock, .checkpoint, .unlock]) :=
  (cuda_freeze_lock_checkpoint
    { lockR := { dur := 2 },
      checkpointR := { dur := 3, err := some "oom" } }).2.1 "oom" rfl rfl

/-- C6: Freeze on an existing Active entry while the tool is unavailable
fails with exactly `cuda-checkpoint not available` and leaves the whole
daemon state unchanged. -/
theorem freeze_capability_missing
    (d : Daemon) (n : String) (env : OpEnv) (p : Proc)
    (hp : findProc d.procs n = some p) (hst : p.state = .active)
    (hav : d.cudaAvailable = false) :
    d.Freeze n env = (d, [], .error .cudaNotAvailable) ∧
    DErr.cudaNotAvailable.render = "cuda-checkpoint not available" := by
  refine ⟨?_, rfl⟩
  unfold Daemon.Freeze
  rw [hp]
  dsimp only
  rw [if_neg (by simp [hst]), hav]
  rfl

/-- C6 witness: a daemon without the tool and an Active entry `a`. -/
theorem freeze_capability_missing_witness :
    dNA.Freeze "a" {} = (dNA, [], .error .cudaNotAvailable) ∧
    DErr.cudaNotAvailable.render = "cuda-checkpoint not available" :=
  freeze_capability_missing dNA "a" {} pA rfl rfl rfl

/-- A found entry makes `Kill` succeed and removes the name from the
registry. -/
theorem Kill_found (d : Daemon) (n : String) (env : OpEnv) (p : Proc)
    (hp : findProc d.procs n = some p) :
    (d.Kill n env).2.2 = .ok () ∧ findProc (d.Kill n env).1.procs n = none := by
  unfold Daemon.Kill
  rw [hp]
  dsimp only
  exact ⟨rfl, findProc_eraseProc_self _ n⟩

/-- A missing entry makes `Kill` fail with NotFound and change nothing. -/
theorem Kill_notFound (d : Daemon) (n : String) (env : OpEnv)
    (hp : findProc d.procs n = none) :
    d.Kill n env = (d, [], .error (.notFound n)) := by
  unfold Daemon.Kill
  rw [hp]

/-- C7: a successful `Kill(n)` removes the entry, so an immediate second
`Kill(n)` fails with NotFound, whose error text is
`process "n" not found`. -/
theorem kill_twice_notFound
    (d : Daemon) (n : String) (env1 env2 : OpEnv) (p : Proc)
    (hp : findProc d.procs n = some p) :
    (∃ d1 sigs, d.Kill n env1 = (d1, sigs, .ok ()) ∧
      d1.Kill n env2 = (d1, [], .error (.notFound n))) ∧
    (DErr.notFound n).render = "process " ++ goQuote n ++ " not found" := by
  refine ⟨?_, rfl⟩
  obtain ⟨hok, hnone⟩ := Kill_found d n env1 p hp
  refine ⟨(d.Kill n env1).1, (d.Kill n env1).2.1, ?_,
    Kill_notFound _ n env2 hnone⟩
  rw [← hok]

/-- C7 witness: kill `a` twice on a concrete registry. -/
theorem kill_twice_notFound_witness :
    (∃ d1 sigs, dW1.Kill "a" {} = (d1, sigs, .ok ()) ∧
      d1.Kill "a" {} = (d1, [], .error (.notFound "a"))) ∧
    (DErr.notFound "a").render = "process \x22a\x22 not found" :=
  kill_twice_notFound dW1 "a" {} {} pA rfl

/-! ## Requests-counter lemmas: no lifecycle operation touches
`metrics.Requests`; only the router bumps it. -/

theorem Run_requests (d : Daemon) (params : RunParams) (env : OpEnv) :
    (d.Run params env).1.metrics.requests = d.metrics.requests := by
  unfold Daemon.Run
  repeat' split
  all_goals rfl

theorem Freeze_requests (d : Daemon) (n : String) (env : OpEnv) :
    (d.Freeze n env).1.metrics.requests = d.metrics.requests := by
  unfold Daemon.Freeze
  repeat' split
  all_goals rfl

theorem Thaw_requests (d : Daemon) (n : String) (env : OpEnv) :
    (d.Thaw n env).1.metrics.requests = d.metrics.requests := by
  unfold Daemon.Thaw
  repeat' split
  all_goals rfl

theorem Kill_requests (d : Daemon) (n : String) (env : OpEnv) :
    (d.Kill n env).1.metrics.requests = d.metrics.requests := by
  unfold Daemon.Kill
  repeat' split
  all_goals rfl

theorem migrateRest_requests (d : Daemon) (p : Proc) (fromGPU : Int)
    (preActs : List SysAction) (params : MigrateParams) (env : OpEnv) :
    (d.migrateRest p fromGPU preActs params env).1.metrics.requests =
      d.metrics.requests := by
  unfold Daemon.migrateRest
  repeat' split
  all_goals rfl

theorem Migrate_requests (d : Daemon) (params : MigrateParams) (env : OpEnv) :
    (d.Migrate params env).1.metrics.requests = d.metrics.requests := by
  unfold Daemon.Migrate
  repeat' split
  all_goals first | rfl | rw [migrateRest_requests]

theorem Logs_requests (d : Daemon) (n : String) (lines : Int) (env : OpEnv) :
    (d.Logs n lines env).1.metrics.requests = d.metrics.requests := by
  unfold Daemon.Logs
  repeat' split
  all_goals rfl

theorem Run_requests2 (d : Daemon) (params : RunParams) (env : OpEnv)
    (d' : Daemon) (acts : List SysAction) (r : Except DErr RunResult)
    (heq : d.Run params env = (d', acts, r)) :
    d'.metrics.requests = d.metrics.requests := by
  have hq := Run_requests d params env
  rw [heq] at hq
  exact hq

theorem Freeze_requests2 (d : Daemon) (n : String) (env : OpEnv)
    (d' : Daemon) (acts : List SysAction) (r : Except DErr FreezeResult)
    (heq : d.Freeze n env = (d', acts, r)) :
    d'.metrics.requests = d.metrics.requests := by
  have hq := Freeze_requests d n env
  rw [heq] at hq
  exact hq

theorem Thaw_requests2 (d : Daemon) (n : String) (env : OpEnv)
    (d' : Daemon) (acts : List SysAction) (r : Except DErr ThawResult)
    (heq : d.Thaw n env = (d', acts, r)) :
    d'.metrics.requests = d.metrics.requests := by
  have hq := Thaw_requests d n env
  rw [heq] at hq
  exact hq

theorem Kill_requests2 (d : Daemon) (n : String) (env : OpEnv)
    (d' : Daemon) (acts : List SysAction) (r : Except DErr Unit)
    (heq : d.Kill n env = (d', acts, r)) :
    d'.metrics.requests = d.metrics.requests := by
  have hq := Kill_requests d n env
  rw [heq] at hq
  exact hq

theorem Migrate_requests2 (d : Daemon) (params : MigrateParams) (env : OpEnv)
    (d' : Daemon) (acts : List SysAction) (r : Except DErr MigrateResult)
    (heq : d.Migrate params env = (d', acts, r)) :
    d'.metrics.requests = d.metrics.requests := by
  have hq := Migrate_requests d params env
  rw [heq] at hq
  exact hq

theorem Logs_requests2 (d : Daemon) (n : String) (lines : Int) (env : OpEnv)
    (d' : Daemon) (acts : List SysAction) (r : Except DErr (List String))
    (heq : d.Logs n lines env = (d', acts, r)) :
    d'.metrics.requests = d.metrics.requests := by
  have hq := Logs_requests d n lines env
  rw [heq] at hq
  exact hq

/-- C8 corrected-claim theorem: every parsed request whose method is not
`subscribe` — all lifecycle methods, `status`, `logs`, unknown methods,
and requests with malformed params — increments `metrics.requests` by
exactly one, regardless of outcome.  (`subscribe` is intercepted by the
connection handler before the router and is not counted.) -/
theorem handle_increments_requests (d : Daemon) (req : Request) (env : OpEnv)
    (h : req.method ≠ "subscribe") :
    (handleConn d req env).1.metrics.requests = d.metrics.requests + 1 := by
  unfold handleConn
  rw [if_neg h]
  unfold Daemon.Handle
  dsimp only
  repeat' split
  all_goals (try rfl)
  all_goals rename_i d2 acts x heq
  all_goals
    first
      | exact Run_requests2 _ _ _ _ _ _ heq
      | exact Freeze_requests2 _ _ _ _ _ _ heq
      | exact Thaw_requests2 _ _ _ _ _ _ heq
      | exact Kill_requests2 _ _ _ _ _ _ heq
      | exact Migrate_requests2 _ _ _ _ _ _ heq
      | exact Logs_requests2 _ _ _ _ _ _ _ heq

/-- C8 witness: a concrete `status` request is counted once. -/
theorem handle_increments_requests_witness :
    (handleConn dW0 { method := "status" } {}).1.metrics.requests =
      dW0.metrics.requests + 1 :=
  handle_increments_requests dW0 { method := "status" } {} (by decide)

/-- C8 counterexample: a `subscribe` request is answered without going
through the router, and the requests counter does not move. -/
theorem subscribe_not_counted_cex :
    (handleConn dW0 { method := "subscribe" } {}).1.metrics.requests = 0 ∧
    ¬ ((handleConn dW0 { method := "subscribe" } {}).1.metrics.requests =
        dW0.metrics.requests + 1) := by
  exact ⟨rfl, by decide⟩

/-! ## No operation of the daemon core ever produces a Hibernated entry -/

theorem NoHib_updateProc (r : Registry) (n : String) (f : Proc → Proc)
    (h : NoHib r)
    (hf : ∀ p, p.state ≠ .hibernated → (f p).state ≠ .hibernated) :
    NoHib (updateProc r n f) := by
  intro kv hkv
  unfold updateProc at hkv
  obtain ⟨kv0, hkv0, rfl⟩ := List.mem_map.mp hkv
  by_cases hk : kv0.1 = n
  · simpa [hk] using hf _ (h kv0 hkv0)
  · simpa [hk] using h kv0 hkv0

theorem NoHib_eraseProc (r : Registry) (n : String) (h : NoHib r) :
    NoHib (eraseProc r n) := by
  intro kv hkv
  unfold eraseProc at hkv
  exact h kv (List.mem_of_mem_filter hkv)

theorem NoHib_cons (k : String) (p : Proc) (r : Registry)
    (h : NoHib r) (hp : p.state ≠ .hibernated) : NoHib ((k, p) :: r) := by
  intro kv hkv
  rcases List.mem_cons.mp hkv with rfl | hm
  · exact hp
  · exact h kv hm

theorem Run_noHib (d : Daemon) (params : RunParams) (env : OpEnv)
    (h : NoHib d.procs) : NoHib (d.Run params env).1.procs := by
  unfold Daemon.Run
  cases hf : findProc d.procs params.name with
  | some q => exact h
  | none =>
    dsimp only
    split
    · exact h
    · cases env.logCreateErr with
      | some m => exact h
      | none =>
        cases env.startPid with
        | error m => exact h
        | ok pid => exact NoHib_cons _ _ _ h (by simp)

theorem Freeze_noHib (d : Daemon) (n : String) (env : OpEnv)
    (h : NoHib d.procs) : NoHib (d.Freeze n env).1.procs := by
  unfold Daemon.Freeze
  cases hf : findProc d.procs n with
  | none => exact h
  | some p =>
    dsimp only
    by_cases hst : p.state = .active
    · rw [if_neg (by simp [hst])]
      by_cases hav : d.cudaAvailable = false
      · rw [if_pos hav]; exact h
      · rw [if_neg hav]
        rcases hc : CUDA.Freeze d.cudaAvailable env.ckpt with ⟨⟨dur, err⟩, acts⟩
        cases err with
        | some e =>
          dsimp only
          exact NoHib_updateProc _ _ _ h fun q hq => by simp [hst]
        | none =>
          dsimp only [emit_procs]
          exact NoHib_updateProc _ _ _
            (NoHib_updateProc _ _ _ h fun q hq => by simp [hst])
            fun q hq => by simp
    · rw [if_pos (by simp [hst])]; exact h

theorem Thaw_noHib (d : Daemon) (n : String) (env : OpEnv)
    (h : NoHib d.procs) : NoHib (d.Thaw n env).1.procs := by
  unfold Daemon.Thaw
  cases hf : findProc d.procs n with
  | none => exact h
  | some p =>
    dsimp only
    by_cases hst : p.state = .frozen
    · rw [if_neg (by simp [hst])]
      rcases hc : CUDA.Thaw d.cudaAvailable env.ckpt with ⟨⟨dur, err⟩, acts⟩
      cases err with
      | some e => exact h
      | none =>
        dsimp only [emit_procs]
        exact NoHib_updateProc _ _ _ h fun q hq => by simp
    · rw [if_pos (by simp [hst])]; exact h

theorem Kill_noHib (d : Daemon) (n : String) (env : OpEnv)
    (h : NoHib d.procs) : NoHib (d.Kill n env).1.procs := by
  unfold Daemon.Kill
  cases hf : findProc d.procs n with
  | none => exact h
  | some p =>
    dsimp only [emit_procs]
    exact NoHib_eraseProc _ _
      (NoHib_updateProc _ _ _ h fun q hq => by simp)

theorem migrateRest_noHib (d : Daemon) (p : Proc) (fromGPU : Int)
    (preActs : List SysAction) (params : MigrateParams) (env : OpEnv)
    (h : NoHib d.procs) :
    NoHib (d.migrateRest p fromGPU preActs params env).1.procs := by
  unfold Daemon.migrateRest
  rcases hro : CUDA.RestoreOnDevice d.cudaAvailable env.ckpt params.gpu with
    ⟨⟨dur, err⟩, ra⟩
  cases err with
  | some e => exact h
  | none =>
    dsimp only
    rcases hu : CUDA.Unlock d.cudaAvailable env.ckpt with ⟨⟨du, erru⟩, ua⟩
    cases erru with
    | some e => exact h
    | none =>
      dsimp only [emit_procs]
      exact NoHib_updateProc _ _ _ h fun q hq => by simp

theorem Migrate_noHib (d : Daemon) (params : MigrateParams) (env : OpEnv)
    (h : NoHib d.procs) : NoHib (d.Migrate params env).1.procs := by
  unfold Daemon.Migrate
  cases hf : findProc d.procs params.name with
  | none => exact h
  | some p =>
    dsimp only
    by_cases hav : d.cudaAvailable = false
    · rw [if_pos hav]; exact h
    · rw [if_neg hav]
      by_cases hst : p.state = .active
      · rw [if_pos hst]
        rcases hc : CUDA.Freeze d.cudaAvailable env.ckpt with ⟨⟨dur, err⟩, acts⟩
        have h2 : NoHib (updateProc d.procs params.name
            fun x => refreshMem p env.memSample) :=
          NoHib_updateProc _ _ _ h fun q hq => by simp [hst]
        cases err with
        | some e =>
          dsimp only
          exact h2
        | none =>
          dsimp only
          exact migrateRest_noHib _ _ _ _ _ _ h2
      · rw [if_neg hst]
        exact migrateRest_noHib _ _ _ _ _ _ h

theorem monitorExit_noHib (d : Daemon) (n detail : String) (now : Nat)
    (h : NoHib d.procs) : NoHib (d.monitorExit n detail now).procs := by
  unfold Daemon.monitorExit
  cases hf : findProc d.procs n with
  | none => exact h
  | some p =>
    dsimp only
    split
    · exact h
    · dsimp only [emit_procs]
      refine NoHib_updateProc _ _ _ h fun q hq => ?_
      simp

theorem sampleMem_noHib (d : Daemon) (n : String) (mem : Int)
    (h : NoHib d.procs) : NoHib (d.sampleMem n mem).procs := by
  unfold Daemon.sampleMem
  cases hf : findProc d.procs n with
  | none => exact h
  | some p =>
    dsimp only
    split
    · show NoHib (updateProc d.procs n fun q => refreshMem q mem)
      refine NoHib_updateProc _ _ _ h fun q hq => ?_
      simpa using hq
    · exact h

theorem Run_noHib2 (d : Daemon) (params : RunParams) (env : OpEnv)
    (d' : Daemon) (acts : List SysAction) (r : Except DErr RunResult)
    (heq : d.Run params env = (d', acts, r)) (h : NoHib d.procs) :
    NoHib d'.procs := by
  have hq := Run_noHib d params env h
  rw [heq] at hq
  exact hq

theorem Freeze_noHib2 (d : Daemon) (n : String) (env : OpEnv)
    (d' : Daemon) (acts : List SysAction) (r : Except DErr FreezeResult)
    (heq : d.Freeze n env = (d', acts, r)) (h : NoHib d.procs) :
    NoHib d'.procs := by
  have hq := Freeze_noHib d n env h
  rw [heq] at hq
  exact hq

theorem Thaw_noHib2 (d : Daemon) (n : String) (env : OpEnv)
    (d' : Daemon) (acts : List SysAction) (r : Except DErr ThawResult)
    (heq : d.Thaw n env = (d', acts, r)) (h : NoHib d.procs) :
    NoHib d'.procs := by
  have hq := Thaw_noHib d n env h
  rw [heq] at hq
  exact hq

theorem Kill_noHib2 (d : Daemon) (n : String) (env : OpEnv)
    (d' : Daemon) (acts : List SysAction) (r : Except DErr Unit)
    (heq : d.Kill n env = (d', acts, r)) (h : NoHib d.procs) :
    NoHib d'.procs := by
  have hq := Kill_noHib d n env h
  rw [heq] at hq
  exact hq

theorem Migrate_noHib2 (d : Daemon) (params : MigrateParams) (env : OpEnv)
    (d' : Daemon) (acts : List SysAction) (r : Except DErr MigrateResult)
    (heq : d.Migrate params env = (d', acts, r)) (h : NoHib d.procs) :
    NoHib d'.procs := by
  have hq := Migrate_noHib d params env h
  rw [heq] at hq
  exact hq

theorem Logs_noHib2 (d : Daemon) (n : String) (lines : Int) (env : OpEnv)
    (d' : Daemon) (acts : List SysAction) (r : Except DErr (List String))
    (heq : d.Logs n lines env = (d', acts, r)) (h : NoHib d.procs) :
    NoHib d'.procs := by
  have hq : (d.Logs n lines env).1.procs = d.procs := by
    unfold Daemon.Logs
    repeat' split
    all_goals rfl
  rw [heq] at hq
  rw [hq]
  exact h

theorem Handle_noHib (d : Daemon) (req : Request) (env : OpEnv)
    (h : NoHib d.procs) : NoHib (d.Handle req env).1.procs := by
  unfold Daemon.Handle
  dsimp only
  repeat' split
  all_goals (try exact h)
  all_goals rename_i d2 acts x heq
  all_goals
    first
      | exact Run_noHib2 _ _ _ _ _ _ heq h
      | exact Freeze_noHib2 _ _ _ _ _ _ heq h
      | exact Thaw_noHib2 _ _ _ _ _ _ heq h
      | exact Kill_noHib2 _ _ _ _ _ _ heq h
      | exact Migrate_noHib2 _ _ _ _ _ _ heq h
      | exact Logs_noHib2 _ _ _ _ _ _ _ heq h

theorem handleConn_noHib (d : Daemon) (req : Request) (env : OpEnv)
    (h : NoHib d.procs) : NoHib (handleConn d req env).1.procs := by
  unfold handleConn
  split
  · exact h
  · exact Handle_noHib d req env h

/-- The Hibernated state is unreachable: no operation of the daemon core
ever sets it. -/
theorem reachable_noHib (d : Daemon) (h : Reachable d) : NoHib d.procs := by
  induction h with
  | init logDir budget avail => intro kv hkv; simp at hkv
  | run d params env _ ih => exact Run_noHib d params env ih
  | freeze d n env _ ih => exact Freeze_noHib d n env ih
  | thaw d n env _ ih => exact Thaw_noHib d n env ih
  | kill d n env _ ih => exact Kill_noHib d n env ih
  | migrate d params env _ ih => exact Migrate_noHib d params env ih
  | exitW d n detail now _ ih => exact monitorExit_noHib d n detail now ih
  | sample d n mem _ ih => exact sampleMem_noHib d n mem ih
  | conn d req env _ ih => exact handleConn_noHib d req env ih

theorem toProcessInfo_state (memOf : Nat → Int) (now : Nat) (p : Proc) :
    (toProcessInfo memOf now p).state = p.state := by
  unfold toProcessInfo
  by_cases h : p.state = .active <;> simp [h]

theorem stateLE_to_spec (a b : ProcessInfo) (ha : a.state ≠ .hibernated)
    (hb : b.state ≠ .hibernated) (h : stateLE a b) :
    specOrder a.state ≤ specOrder b.state := by
  unfold stateLE at h
  cases hA : a.state <;> cases hB : b.state <;>
    simp_all [sortOrder, specOrder]

/-- C9: in every reachable daemon state, whatever order Go's map
iteration presents the registry in, the process list of the status
snapshot is sorted by lifecycle state in the spec's order Active,
Frozen, Hibernated, Dead.  (The code's comparator gives Hibernated rank
0, but no operation of this daemon ever produces a Hibernated entry, so
on every snapshot the code's order agrees with the spec's.) -/
theorem status_sorted_by_state (d : Daemon) (h : Reachable d)
    (iter : List Proc) (hperm : iter.Perm (d.procs.map Prod.snd))
    (env : OpEnv) :
    List.Sorted (fun a b => specOrder a.state ≤ specOrder b.state)
      (d.Status iter env).processes := by
  have hred : (d.Status iter env).processes =
      sortProcs (iter.map (toProcessInfo env.memOf env.now)) := rfl
  rw [hred]
  have hsorted : List.Sorted stateLE
      (sortProcs (iter.map (toProcessInfo env.memOf env.now))) := by
    unfold sortProcs
    exact List.sorted_insertionSort stateLE _
  have hmem : ∀ x ∈ sortProcs (iter.map (toProcessInfo env.memOf env.now)),
      x.state ≠ ProcessState.hibernated := by
    intro x hx
    have hx2 : x ∈ iter.map (toProcessInfo env.memOf env.now) := by
      unfold sortProcs at hx
      exact (List.mem_insertionSort stateLE).mp hx
    obtain ⟨p, hpmem, rfl⟩ := List.mem_map.mp hx2
    have hp2 : p ∈ d.procs.map Prod.snd := hperm.subset hpmem
    obtain ⟨kv, hkv, rfl⟩ := List.mem_map.mp hp2
    rw [toProcessInfo_state]
    exact reachable_noHib d h kv hkv
  exact List.Pairwise.imp_of_mem
    (fun ha hb hr => stateLE_to_spec _ _ (hmem _ ha) (hmem _ hb) hr) hsorted

/-- C9 witness: a concrete reachable daemon (run then freeze) with the
registry iterated in its in-memory order. -/
theorem status_sorted_by_state_witness :
    List.Sorted (fun a b => specOrder a.state ≤ specOrder b.state)
      (dW2.Status (dW2.procs.map Prod.snd) {}).processes :=
  status_sorted_by_state dW2
    (Reachable.freeze dW1 "a" {}
      (Reachable.run dW0 pW eW0 (Reachable.init "/tmp/gpusched/logs" 0 true)))
    (dW2.procs.map Prod.snd) (List.Perm.refl _) {}

theorem CUDA_RoD_acts (avail : Bool) (env : CkptEnv) (g : Int) :
    (CUDA.RestoreOnDevice avail env g).2 = [.restoreOnDevice g] := by
  unfold CUDA.RestoreOnDevice
  rcases runTool avail env.restoreOnDeviceR with ⟨a, b⟩
  rfl

theorem CUDA_Unlock_acts (avail : Bool) (env : CkptEnv) :
    (CUDA.Unlock avail env).2 = [.unlock] := by
  unfold CUDA.Unlock
  rcases runTool avail env.unlockR with ⟨a, b⟩
  rfl

theorem CUDA_RoD_ok (env : CkptEnv) (g : Int)
    (h : env.restoreOnDeviceR.err = none) :
    CUDA.RestoreOnDevice true env g =
      ((env.restoreOnDeviceR.dur, none), [.restoreOnDevice g]) := by
  simp [CUDA.RestoreOnDevice, runTool, h]

theorem CUDA_Unlock_ok (env : CkptEnv) (h : env.unlockR.err = none) :
    CUDA.Unlock true env = ((env.unlockR.dur, none), [.unlock]) := by
  simp [CUDA.Unlock, runTool, h]

/-- Any error out of the shared Migrate tail is a restore-on-gpu or an
unlock-after-migrate error. -/
theorem migrateRest_err (d : Daemon) (p : Proc) (fromGPU : Int)
    (preActs : List SysAction) (params : MigrateParams) (env : OpEnv)
    (d' : Daemon) (acts : List SysAction) (e : DErr)
    (h : d.migrateRest p fromGPU preActs params env = (d', acts, .error e)) :
    (∃ e', e = .restoreOnGpu params.gpu e') ∨
    (∃ e', e = .unlockAfterMigrate e') := by
  unfold Daemon.migrateRest at h
  rcases hro : CUDA.RestoreOnDevice d.cudaAvailable env.ckpt params.gpu with
    ⟨⟨dur, err⟩, ra⟩
  rw [hro] at h
  cases err with
  | some e0 =>
    dsimp only at h
    simp only [Prod.mk.injEq] at h
    exact Or.inl ⟨e0, (Except.error.inj h.2.2).symm⟩
  | none =>
    dsimp only at h
    rcases hu : CUDA.Unlock d.cudaAvailable env.ckpt with ⟨⟨du, erru⟩, ua⟩
    rw [hu] at h
    cases erru with
    | some e0 =>
      dsimp only at h
      simp only [Prod.mk.injEq] at h
      exact Or.inr ⟨e0, (Except.error.inj h.2.2).symm⟩
    | none =>
      dsimp only at h
      simp at h

/-- With the tool available and Restore-on-device and Unlock succeeding,
the Migrate tail commits state Active and the target GPU and succeeds. -/
theorem migrateRest_ok (d : Daemon) (p : Proc) (fromGPU : Int)
    (preActs : List SysAction) (params : MigrateParams) (env : OpEnv)
    (hav : d.cudaAvailable = true)
    (hro : env.ckpt.restoreOnDeviceR.err = none)
    (hu : env.ckpt.unlockR.err = none) :
    findProc (d.migrateRest p fromGPU preActs params env).1.procs params.name =
      (findProc d.procs params.name).map
        (fun q => { q with state := .active, gpu := params.gpu }) ∧
    (d.migrateRest p fromGPU preActs params env).2.2 =
      .ok { name := params.name, fromGPU := fromGPU, toGPU := params.gpu } := by
  unfold Daemon.migrateRest
  rw [hav, CUDA_RoD_ok env.ckpt params.gpu hro, CUDA_Unlock_ok env.ckpt hu]
  dsimp only [emit_procs]
  exact ⟨findProc_updateProc_self _ _ _, rfl⟩

/-- Every action the Migrate tail performs on the skip-checkpoint path
is the CONT signal, the restore-on-device invocation, or the unlock
invocation. -/
theorem migrateRest_trace (d : Daemon) (p : Proc) (fromGPU : Int)
    (params : MigrateParams) (env : OpEnv) :
    ∀ a ∈ (d.migrateRest p fromGPU [] params env).2.1,
      a = .signal p.pid .sigcont ∨ a = .tool (.restoreOnDevice params.gpu) ∨
      a = .tool .unlock := by
  unfold Daemon.migrateRest
  rcases hro : CUDA.RestoreOnDevice d.cudaAvailable env.ckpt params.gpu with
    ⟨⟨dur, err⟩, ra⟩
  have hra : ra = [.restoreOnDevice params.gpu] := by
    have hacts := CUDA_RoD_acts d.cudaAvailable env.ckpt params.gpu
    rw [hro] at hacts
    exact hacts
  subst hra
  cases err with
  | some e0 =>
    intro a ha
    simp at ha
    rcases ha with rfl | rfl
    · exact Or.inl rfl
    · exact Or.inr (Or.inl rfl)
  | none =>
    rcases hun : CUDA.Unlock d.cudaAvailable env.ckpt with ⟨⟨du, erru⟩, ua⟩
    have hua : ua = [.unlock] := by
      have hacts := CUDA_Unlock_acts d.cudaAvailable env.ckpt
      rw [hun] at hacts
      exact hacts
    subst hua
    cases erru with
    | some e0 =>
      intro a ha
      simp at ha
      rcases ha with rfl | rfl | rfl
      · exact Or.inl rfl
      · exact Or.inr (Or.inl rfl)
      · exact Or.inr (Or.inr rfl)
    | none =>
      intro a ha
      simp at ha
      rcases ha with rfl | rfl | rfl
      · exact Or.inl rfl
      · exact Or.inr (Or.inl rfl)
      · exact Or.inr (Or.inr rfl)

/-- Any error out of `Migrate` is NotFound, CapabilityMissing, or a
wrapped tool failure — never a WrongState error. -/
theorem Migrate_err_shape (d : Daemon) (params : MigrateParams) (env : OpEnv)
    (d' : Daemon) (acts : List SysAction) (e : DErr)
    (h : d.Migrate params env = (d', acts, .error e)) :
    e = .notFound params.name ∨ e = .cudaNotAvailable ∨
    (∃ e', e = .freezeForMigrate e') ∨
    (∃ e', e = .restoreOnGpu params.gpu e') ∨
    (∃ e', e = .unlockAfterMigrate e') := by
  unfold Daemon.Migrate at h
  cases hf : findProc d.procs params.name with
  | none =>
    rw [hf] at h
    dsimp only at h
    simp only [Prod.mk.injEq] at h
    exact Or.inl (Except.error.inj h.2.2).symm
  | some p =>
    rw [hf] at h
    dsimp only at h
    by_cases hav : d.cudaAvailable = false
    · rw [if_pos hav] at h
      simp only [Prod.mk.injEq] at h
      exact Or.inr (Or.inl (Except.error.inj h.2.2).symm)
    · rw [if_neg hav] at h
      by_cases hst : p.state = .active
      · rw [if_pos hst] at h
        rcases hc : CUDA.Freeze d.cudaAvailable env.ckpt with ⟨⟨dur, err⟩, ca⟩
        rw [hc] at h
        cases err with
        | some e0 =>
          dsimp only at h
          simp only [Prod.mk.injEq] at h
          exact Or.inr (Or.inr (Or.inl ⟨e0, (Except.error.inj h.2.2).symm⟩))
        | none =>
          dsimp only at h
          rcases migrateRest_err _ _ _ _ _ _ _ _ _ h with he | he
          · exact Or.inr (Or.inr (Or.inr (Or.inl he)))
          · exact Or.inr (Or.inr (Or.inr (Or.inr he)))
      · rw [if_neg hst] at h
        rcases migrateRest_err _ _ _ _ _ _ _ _ _ h with he | he
        · exact Or.inr (Or.inr (Or.inr (Or.inl he)))
        · exact Or.inr (Or.inr (Or.inr (Or.inr he)))

/-- C10: Migrate checks no source state.  On any present entry it never
fails with a WrongState error; on a non-Active entry it skips the
lock+checkpoint+STOP prologue entirely; and when the tool is available
and restore-on-device and unlock succeed (plus, for an Active entry, the
checkpoint prologue), it commits state Active and the requested target
GPU and succeeds. -/
theorem migrate_no_state_precondition
    (d : Daemon) (params : MigrateParams) (env : OpEnv) (p : Proc)
    (hp : findProc d.procs params.name = some p) :
    (∀ d' acts e, d.Migrate params env = (d', acts, .error e) →
      e.isWrongState = false) ∧
    (p.state ≠ .active →
      ∀ a ∈ (d.Migrate params env).2.1,
        a ≠ .tool .lock ∧ a ≠ .tool .checkpoint ∧
        a ≠ .signal p.pid .sigstop) ∧
    (d.cudaAvailable = true →
     env.ckpt.restoreOnDeviceR.err = none →
     env.ckpt.unlockR.err = none →
     (p.state = .active →
        env.ckpt.lockR.err = none ∧ env.ckpt.checkpointR.err = none) →
     ∃ q, findProc (d.Migrate params env).1.procs params.name = some q ∧
       q.state = .active ∧ q.gpu = params.gpu ∧
       (d.Migrate params env).2.2 =
         .ok { name := params.name, fromGPU := p.gpu, toGPU := params.gpu }) := by
  refine ⟨?_, ?_, ?_⟩
  · intro d' acts e h
    rcases Migrate_err_shape d params env d' acts e h with
      rfl | rfl | ⟨e', rfl⟩ | ⟨e', rfl⟩ | ⟨e', rfl⟩ <;> rfl
  · intro hst a ha
    unfold Daemon.Migrate at ha
    rw [hp] at ha
    dsimp only at ha
    by_cases hav : d.cudaAvailable = false
    · rw [if_pos hav] at ha
      simp at ha
    · rw [if_neg hav, if_neg hst] at ha
      rcases migrateRest_trace d p p.gpu params env a ha with rfl | rfl | rfl
      · exact ⟨by simp, by simp, by simp⟩
      · exact ⟨by simp, by simp, by simp⟩
      · exact ⟨by simp, by simp, by simp⟩
  · intro hav hro hu hpre
    unfold Daemon.Migrate
    rw [hp]
    dsimp only
    rw [hav]
    rw [if_neg (by simp)]
    by_cases hst : p.state = .active
    · rw [if_pos hst]
      obtain ⟨hl, hck⟩ := hpre hst
      rw [show CUDA.Freeze true env.ckpt =
        ((env.ckpt.lockR.dur + env.ckpt.checkpointR.dur, none),
         [.lock, .checkpoint]) from CUDA_Freeze_success env.ckpt hl hck]
      dsimp only
      obtain ⟨hfind, hok⟩ := migrateRest_ok
        { d with
          procs := updateProc d.procs params.name
            (fun _ => refreshMem p env.memSample),
          cudaAvailable := true }
        (refreshMem p env.memSample) p.gpu
        (List.map SysAction.tool [CkptAction.lock, CkptAction.checkpoint] ++
          [SysAction.signal p.pid Signal.sigstop])
        params env rfl hro hu
      refine ⟨{ refreshMem p env.memSample with
                state := .active, gpu := params.gpu }, ?_, rfl, rfl, ?_⟩
      · rw [hfind]
        dsimp only
        rw [findProc_updateProc_self, hp]
        rfl
      · exact hok
    · rw [if_neg hst]
      obtain ⟨hfind, hok⟩ := migrateRest_ok d p p.gpu [] params env hav hro hu
      refine ⟨{ p with state := .active, gpu := params.gpu }, ?_, rfl, rfl, ?_⟩
      · rw [hfind, hp]
        rfl
      · exact hok

/-- C10 witness: migrating the concrete Frozen entry `a` to GPU 3. -/
theorem migrate_no_state_precondition_witness :
    (∀ d' acts e,
      dW2.Migrate { name := "a", gpu := 3 } {} = (d', acts, .error e) →
      e.isWrongState = false) ∧
    (pFr.state ≠ .active →
      ∀ a ∈ (dW2.Migrate { name := "a", gpu := 3 } {}).2.1,
        a ≠ .tool .lock ∧ a ≠ .tool .checkpoint ∧
        a ≠ .signal pFr.pid .sigstop) ∧
    (dW2.cudaAvailable = true →
     ({} : OpEnv).ckpt.restoreOnDeviceR.err = none →
     ({} : OpEnv).ckpt.unlockR.err = none →
     (pFr.state = .active →
        ({} : OpEnv).ckpt.lockR.err = none ∧
        ({} : OpEnv).ckpt.checkpointR.err = none) →
     ∃ q, findProc (dW2.Migrate { name := "a", gpu := 3 } {}).1.procs "a" =
         some q ∧
       q.state = .active ∧ q.gpu = 3 ∧
       (dW2.Migrate { name := "a", gpu := 3 } {}).2.2 =
         .ok { name := "a", fromGPU := pFr.gpu, toGPU := 3 }) :=
  migrate_no_state_precondition dW2 { name := "a", gpu := 3 } {} pFr rfl

end Gpusched
